import Mathlib

/-!
# Verification of the screenshot-queue scheduler

A shallow embedding of `src/src/lib/screenshot-queue-manager.ts` together with
the data model of `src/src/types/screenshot-queue.ts`, and proofs about the
scheduler's behaviour.

Modelling conventions:

* JavaScript objects live in a heap: `ManagerState.store` is the object heap,
  a list indexed by object reference (`Nat`).  `this.queue` is an array of
  object references, so `ManagerState.queue : List Nat`.  Mutating a captured
  object (e.g. `nextItem.status = 'completed'`) is an update of the store at
  that reference, whether or not the reference is still in the queue — exactly
  the aliasing behaviour of the source.
* `generateId` produces a globally fresh identifier; we model the id of an
  item as its (fresh, never reused) allocation index in the store, so the
  string keys of `processingQueue : Set<string>` and
  `retryCounts : Map<string, number>` coincide with object references.
* `Set` and `Map` are association lists: `add` is append-if-absent, `delete`
  removes every entry with the key (a JS `Set`/`Map` holds a key at most
  once, so after `delete` the key is absent).
* `processNext` is `async` and suspends exactly at its two `await`ed Solver
  calls.  We split it at that suspension point: `processNextStart` is the
  synchronous prefix (concurrency check, FIFO selection, admission,
  `itemProcessing` emission), a `PipelineOutcome` abstracts what the two
  solver stages eventually produce (the external-collaborator contract), and
  `processNextFinish` is the synchronous continuation (the `try`'s tail, the
  `catch`, and the `finally`).  The un-awaited `this.processNext()` calls
  launched from the `finally` and from the retry `setTimeout` are the starts
  of *subsequent* dispatch attempts; in the trace semantics (`Op`, `applyOp`)
  they appear as later `Op.dispatchStart` steps.
* `emit` delivers the payload to the listeners by reference (the source
  passes `nextItem`, the very object stored in `this.queue`), so an emitted
  event is recorded as an `EventKind` together with the payload's object
  reference, and a listener's write through the payload is a store update at
  that reference (`listenerSetStatus`).
-/

namespace ScreenshotQueue

/-- `status: 'pending' | 'processing' | 'completed' | 'error'` from
`src/src/types/screenshot-queue.ts`. -/
inductive ScreenshotStatus where
  | pending
  | processing
  | completed
  | error
deriving DecidableEq, Repr

/-- The optional `metadata` record of `ScreenshotItem`:
`{ problemStatement?: string; solution?: string; error?: string }`. -/
structure ItemMetadata where
  problemStatement : Option String
  solution : Option String
  error : Option String
deriving DecidableEq, Repr

/-- `ScreenshotItem` from `src/src/types/screenshot-queue.ts`.  The `id` is
modelled as the item's allocation index in the store (fresh and unique, as
`generateId` guarantees for its string ids). -/
structure ScreenshotItem where
  id : Nat
  path : String
  preview : String
  status : ScreenshotStatus
  timestamp : Nat
  metadata : Option ItemMetadata
deriving DecidableEq, Repr

/-- `QueueManagerConfig` from `src/src/types/screenshot-queue.ts`. -/
structure QueueManagerConfig where
  maxConcurrent : Nat
  autoProcess : Bool
  retryAttempts : Nat
  retryDelay : Nat
deriving DecidableEq, Repr

/-- The constructor defaults:
`{ maxConcurrent: 3, autoProcess: true, retryAttempts: 3, retryDelay: 1000 }`. -/
def defaultConfig : QueueManagerConfig :=
  { maxConcurrent := 3, autoProcess := true, retryAttempts := 3, retryDelay := 1000 }

/-- `Partial<QueueManagerConfig>`: each field optionally overridden. -/
structure PartialConfig where
  maxConcurrent : Option Nat
  autoProcess : Option Bool
  retryAttempts : Option Nat
  retryDelay : Option Nat
deriving DecidableEq, Repr

/-- The spread merge `{ ...base, ...p }` used by the constructor and by
`updateConfig`. -/
def mergeConfig (base : QueueManagerConfig) (p : PartialConfig) : QueueManagerConfig :=
  { maxConcurrent := p.maxConcurrent.getD base.maxConcurrent
    autoProcess := p.autoProcess.getD base.autoProcess
    retryAttempts := p.retryAttempts.getD base.retryAttempts
    retryDelay := p.retryDelay.getD base.retryDelay }

/-- The five event kinds of `QueueManagerEvents`. -/
inductive EventKind where
  | itemAdded
  | itemProcessing
  | itemCompleted
  | itemError
  | itemRemoved
deriving DecidableEq, Repr

/-- A recorded emission.  The source's `emit(event, nextItem)` hands listeners
the very object stored in the queue, so the payload is an object reference
into the store, not a copy. -/
structure QueueEvent where
  kind : EventKind
  ref : Nat
deriving DecidableEq, Repr

/-- `Set<string>.add` — a set holds each element at most once. -/
def setAdd (l : List Nat) (x : Nat) : List Nat :=
  if x ∈ l then l else l ++ [x]

/-- `Set<string>.delete` / `Map.delete` on keys — afterwards the key is absent. -/
def setDelete (l : List Nat) (x : Nat) : List Nat :=
  l.filter (fun y => y ≠ x)

/-- `Map<string, number>.get`. -/
def mapGet (m : List (Nat × Nat)) (k : Nat) : Option Nat :=
  (m.find? (fun p => p.1 = k)).map Prod.snd

/-- `Map<string, number>.set`. -/
def mapSet (m : List (Nat × Nat)) (k v : Nat) : List (Nat × Nat) :=
  (m.filter (fun p => p.1 ≠ k)) ++ [(k, v)]

/-- `Map<string, number>.delete`. -/
def mapDelete (m : List (Nat × Nat)) (k : Nat) : List (Nat × Nat) :=
  m.filter (fun p => p.1 ≠ k)

/-- The mutable state of a `ScreenshotQueueManager` instance, plus the object
heap and the log of emitted events. -/
structure ManagerState where
  store : List ScreenshotItem
  queue : List Nat
  processingQueue : List Nat
  retryCounts : List (Nat × Nat)
  config : QueueManagerConfig
  events : List QueueEvent
deriving DecidableEq, Repr

/-- The default value an out-of-range read falls back to (unreachable in real
executions: the queue only ever holds allocated references). -/
def defaultItem : ScreenshotItem :=
  { id := 0, path := "", preview := "", status := .pending, timestamp := 0, metadata := none }

/-- Reading an item object through a reference. -/
def deref (s : ManagerState) (r : Nat) : ScreenshotItem :=
  (s.store.get? r).getD defaultItem

/-- Mutating the item object behind a reference (a field assignment on a
captured JS object). -/
def mutate (s : ManagerState) (r : Nat) (f : ScreenshotItem → ScreenshotItem) : ManagerState :=
  { s with store := s.store.set r (f (deref s r)) }

/-- `nextItem.status = st`. -/
def setStatus (s : ManagerState) (r : Nat) (st : ScreenshotStatus) : ManagerState :=
  mutate s r (fun it => { it with status := st })

/-- `this.eventEmitter.emit(k, item-at-r)` — the payload travels by reference. -/
def emit (s : ManagerState) (k : EventKind) (r : Nat) : ManagerState :=
  { s with events := s.events ++ [{ kind := k, ref := r }] }

/-- `new ScreenshotQueueManager(config)`: spread the overrides over the
defaults; all containers start empty. -/
def initialState (p : PartialConfig) : ManagerState :=
  { store := [], queue := [], processingQueue := [], retryCounts := [],
    config := mergeConfig defaultConfig p, events := [] }

/-- `this.queue.find(item => item.status === 'pending')` — the FIFO scan for
the first pending item, returning its reference. -/
def findPending (s : ManagerState) : Option Nat :=
  s.queue.find? (fun r => (deref s r).status == .pending)

/-- The synchronous prefix of `processNext` (lines 64–77): the concurrency
check, the FIFO selection, admission into `processingQueue`, the transition to
`processing`, and the `itemProcessing` emission.  Returns the reference of the
selected item, or `none` when the call was a no-op.  Execution then suspends
at `await this.processWithAI(...)`. -/
def processNextStart (s : ManagerState) : ManagerState × Option Nat :=
  if s.processingQueue.length ≥ s.config.maxConcurrent then (s, none)
  else
    match findPending s with
    | none => (s, none)
    | some r =>
      let s1 := { s with processingQueue := setAdd s.processingQueue r }
      let s2 := setStatus s1 r .processing
      (emit s2 .itemProcessing r, some r)

/-- What the two awaited solver stages (`processWithAI` then
`generateSolution`) eventually produce for one dispatch attempt: both succeed,
or one of them throws.  The solver is the external collaborator; its outcome
is a parameter of the continuation. -/
inductive PipelineOutcome where
  | success (problemStatement : String) (solutionCode : String)
  | failure (msg : String)
deriving DecidableEq, Repr

/-- The `finally` block (lines 109–117): it runs on *every* exit from the
`try`/`catch` — including the early `return` of the retry path — and deletes
the item's id from both `processingQueue` and `retryCounts`.  The trailing
`if (this.config.autoProcess) this.processNext()` launches the next dispatch
attempt; being un-awaited it is a separate `Op.dispatchStart` step in the
trace semantics. -/
def finallyBlock (s : ManagerState) (r : Nat) : ManagerState :=
  { s with processingQueue := setDelete s.processingQueue r,
           retryCounts := mapDelete s.retryCounts r }

/-- The synchronous continuation of `processNext` after the solver calls
settle (lines 83–117): the `try` tail on success, the `catch` on failure
(retry bookkeeping or terminal error), and in all cases the `finally`. -/
def processNextFinish (s : ManagerState) (r : Nat) (o : PipelineOutcome) : ManagerState :=
  match o with
  | .success problem code =>
    let md : ItemMetadata :=
      { problemStatement := some problem, solution := some code, error := none }
    let s1 := mutate s r (fun it => { it with status := .completed, metadata := some md })
    finallyBlock (emit s1 .itemCompleted r) r
  | .failure msg =>
    let retryCount := (mapGet s.retryCounts r).getD 0
    if retryCount < s.config.retryAttempts then
      let s1 := { s with retryCounts := mapSet s.retryCounts r (retryCount + 1) }
      let s2 := setStatus s1 r .pending
      let s3 := { s2 with processingQueue := setDelete s2.processingQueue r }
      finallyBlock s3 r
    else
      let md : ItemMetadata :=
        { problemStatement := none, solution := none, error := some msg }
      let s1 := mutate s r (fun it => { it with status := .error, metadata := some md })
      finallyBlock (emit s1 .itemError r) r

/-- `addScreenshot(path, preview)` (lines 44–62): allocate a fresh item in
`pending`, append its reference to the queue, emit `itemAdded`, and — when
`autoProcess` is on — run the synchronous prefix of `processNext`.  `now` is
the ambient clock (`Date.now()`). -/
def addScreenshot (s : ManagerState) (path preview : String) (now : Nat) : ManagerState :=
  let r := s.store.length
  let item : ScreenshotItem :=
    { id := r, path := path, preview := preview, status := .pending,
      timestamp := now, metadata := none }
  let s1 := emit { s with store := s.store ++ [item], queue := s.queue ++ [r] }
              .itemAdded r
  if s1.config.autoProcess then (processNextStart s1).1 else s1

/-- `removeScreenshot(id)` (lines 163–174): find the first queue entry with
this id; if none, return `false` untouched; otherwise splice it out, delete
the id from `processingQueue` and `retryCounts`, and emit `itemRemoved` with
the removed item object. -/
def removeScreenshot (s : ManagerState) (id : Nat) : ManagerState × Bool :=
  match s.queue.findIdx? (fun r => (deref s r).id == id) with
  | none => (s, false)
  | some index =>
    let r := (s.queue.get? index).getD 0
    let s1 := { s with queue := s.queue.eraseIdx index,
                       processingQueue := setDelete s.processingQueue id,
                       retryCounts := mapDelete s.retryCounts id }
    (emit s1 .itemRemoved r, true)

/-- `getQueue()` returns `[...this.queue]`; an observer reads the items
through the references it holds. -/
def getQueue (s : ManagerState) : List ScreenshotItem :=
  s.queue.map (deref s)

/-- `getProcessingCount()`. -/
def getProcessingCount (s : ManagerState) : Nat :=
  s.processingQueue.length

/-- The record returned by `getQueueStats()`. -/
structure QueueStats where
  total : Nat
  pending : Nat
  processing : Nat
  completed : Nat
  error : Nat
deriving DecidableEq, Repr

/-- `getQueueStats()` (lines 184–198): `total` is the queue length; the other
four fields count the queue's items by status.  A pure observer: it takes the
state and returns only the counts. -/
def getQueueStats (s : ManagerState) : QueueStats :=
  let items := getQueue s
  { total := s.queue.length
    pending := items.countP (fun it => it.status == .pending)
    processing := items.countP (fun it => it.status == .processing)
    completed := items.countP (fun it => it.status == .completed)
    error := items.countP (fun it => it.status == .error) }

/-- `clearQueue()` (lines 200–204): empty the queue, the processing set and
the retry map; nothing is emitted. -/
def clearQueue (s : ManagerState) : ManagerState :=
  { s with queue := [], processingQueue := [], retryCounts := [] }

/-- `updateConfig(newConfig)` (lines 214–216): spread-merge into the config. -/
def updateConfig (s : ManagerState) (p : PartialConfig) : ManagerState :=
  { s with config := mergeConfig s.config p }

/-- A listener that executes `item.status = st` on the payload it received:
the payload is a live reference, so the write goes through to the store. -/
def listenerSetStatus (s : ManagerState) (e : QueueEvent) (st : ScreenshotStatus) :
    ManagerState :=
  setStatus s e.ref st

/-- One observable operation on the scheduler.  `dispatchFinish r o` is the
resumption of the in-flight pipeline of item `r` with solver outcome `o`; the
auto-dispatches launched from `finally` and from the retry timer are
`dispatchStart` steps at their position in the trace. -/
inductive Op where
  | submit (path preview : String) (now : Nat)
  | dispatchStart
  | dispatchFinish (r : Nat) (o : PipelineOutcome)
  | remove (id : Nat)
  | clear
  | updateCfg (p : PartialConfig)
deriving Repr

/-- Applying one operation to the state. -/
def applyOp (s : ManagerState) : Op → ManagerState
  | .submit path preview now => addScreenshot s path preview now
  | .dispatchStart => (processNextStart s).1
  | .dispatchFinish r o => processNextFinish s r o
  | .remove id => (removeScreenshot s id).1
  | .clear => clearQueue s
  | .updateCfg p => updateConfig s p

/-- No configuration overrides. -/
def noOverrides : PartialConfig :=
  { maxConcurrent := none, autoProcess := none, retryAttempts := none, retryDelay := none }

/-! ## Concrete scenario states used by several theorems -/

/-- `autoProcess: false` (manual stepping), everything else defaulted. -/
def manualOverrides : PartialConfig :=
  { maxConcurrent := none, autoProcess := some false, retryAttempts := none,
    retryDelay := none }

/-- Scenario 2 of the spec: `retryAttempts = 2`, `retryDelay = 50`, manual
stepping, a solver that always fails with `"net-error"`. -/
def scn2Overrides : PartialConfig :=
  { maxConcurrent := none, autoProcess := some false, retryAttempts := some 2,
    retryDelay := some 50 }

/-- One full dispatch attempt whose solver stage fails with `"net-error"`:
the synchronous prefix followed, at resumption, by the failure continuation. -/
def failedAttempt (s : ManagerState) : ManagerState :=
  match processNextStart s with
  | (s1, some r) => processNextFinish s1 r (.failure "net-error")
  | (s1, none) => s1

/-- Scenario 2, after submitting the single item. -/
def scn2Submitted : ManagerState := addScreenshot (initialState scn2Overrides) "a" "b" 0

/-- Manual-stepping manager with one submitted item. -/
def oneSubmitted : ManagerState := addScreenshot (initialState manualOverrides) "a" "b" 0

/-- `oneSubmitted` after a manual `processNext()` admitted the item. -/
def oneProcessing : ManagerState := (processNextStart oneSubmitted).1

/-- `oneProcessing` after `removeScreenshot` removed the in-flight item. -/
def removedWhileProcessing : ManagerState := (removeScreenshot oneProcessing 0).1

/-- Scenario 5 of the spec: `maxConcurrent = 2`, manual stepping, two items
submitted and both admitted into processing. -/
def twoProcessing : ManagerState :=
  (processNextStart ((processNextStart
    (addScreenshot (addScreenshot (initialState
      { maxConcurrent := some 2, autoProcess := some false, retryAttempts := none,
        retryDelay := none }) "a" "b" 0) "c" "d" 1)).1)).1

/-- `twoProcessing` after `updateConfig` lowered `maxConcurrent` to 1. -/
def loweredCap : ManagerState :=
  updateConfig twoProcessing
    { maxConcurrent := some 1, autoProcess := none, retryAttempts := none,
      retryDelay := none }

/-! ## Helper lemmas -/

lemma setDelete_not_mem (l : List Nat) (x : Nat) : x ∉ setDelete l x := by
  simp [setDelete]

lemma setDelete_length_le (l : List Nat) (x : Nat) : (setDelete l x).length ≤ l.length :=
  List.length_filter_le _ l

lemma setAdd_length_le (l : List Nat) (x : Nat) : (setAdd l x).length ≤ l.length + 1 := by
  unfold setAdd
  split
  · omega
  · simp

lemma mapGet_mapDelete (m : List (Nat × Nat)) (k : Nat) : mapGet (mapDelete m k) k = none := by
  simp only [mapGet, mapDelete, Option.map_eq_none']
  rw [List.find?_eq_none]
  intro p hp
  simp only [List.mem_filter] at hp
  simpa using hp.2

/-- The `finally` block runs on every exit path of `processNextFinish`, so the
finished item's id is no longer in `processingQueue`. -/
lemma finish_not_inflight (s : ManagerState) (r : Nat) (o : PipelineOutcome) :
    r ∉ (processNextFinish s r o).processingQueue := by
  cases o with
  | success p c => exact setDelete_not_mem _ _
  | failure msg =>
    simp only [processNextFinish]
    split
    · exact setDelete_not_mem _ _
    · exact setDelete_not_mem _ _

/-- The `finally` block also deletes the finished item's retry entry on every
exit path — including the transient-failure path that just created it. -/
lemma finish_tracker_none (s : ManagerState) (r : Nat) (o : PipelineOutcome) :
    mapGet (processNextFinish s r o).retryCounts r = none := by
  cases o with
  | success p c => exact mapGet_mapDelete _ _
  | failure msg =>
    simp only [processNextFinish]
    split
    · exact mapGet_mapDelete _ _
    · exact mapGet_mapDelete _ _

/-- The continuation only ever deletes ids from `processingQueue`. -/
lemma finish_processing_length (s : ManagerState) (r : Nat) (o : PipelineOutcome) :
    (processNextFinish s r o).processingQueue.length ≤ s.processingQueue.length := by
  cases o with
  | success p c => exact setDelete_length_le _ _
  | failure msg =>
    simp only [processNextFinish]
    split
    · exact le_trans (setDelete_length_le _ _) (setDelete_length_le _ _)
    · exact setDelete_length_le _ _

/-- `removeScreenshot` only ever deletes from `processingQueue` and never
touches the config. -/
lemma remove_processing_length (s : ManagerState) (id : Nat) :
    ((removeScreenshot s id).1).processingQueue.length ≤ s.processingQueue.length ∧
    ((removeScreenshot s id).1).config = s.config := by
  unfold removeScreenshot
  rcases h : s.queue.findIdx? (fun r => (deref s r).id == id) with _ | idx
  · exact ⟨le_refl _, rfl⟩
  · exact ⟨setDelete_length_le _ _, rfl⟩

/-- Each item's status is exactly one of the four, so counting the queue by
status partitions it. -/
lemma countP_status_partition (l : List ScreenshotItem) :
    l.countP (fun it => it.status == .pending) +
      l.countP (fun it => it.status == .processing) +
      l.countP (fun it => it.status == .completed) +
      l.countP (fun it => it.status == .error) = l.length := by
  induction l with
  | nil => rfl
  | cons it l ih =>
    cases h : it.status <;> simp [List.countP_cons, h] <;> omega

/-- `processNextFinish` never touches the queue array: the `catch`/`finally`
mutate the captured item object and the two id containers only. -/
lemma processNextFinish_queue (s : ManagerState) (r : Nat) (o : PipelineOutcome) :
    (processNextFinish s r o).queue = s.queue := by
  cases o with
  | success p c => rfl
  | failure msg =>
    simp only [processNextFinish]
    split <;> rfl

/-- `processNextFinish` never touches the config. -/
lemma processNextFinish_config (s : ManagerState) (r : Nat) (o : PipelineOutcome) :
    (processNextFinish s r o).config = s.config := by
  cases o with
  | success p c => rfl
  | failure msg =>
    simp only [processNextFinish]
    split <;> rfl

/-- The synchronous prefix of `processNext` preserves the concurrency bound:
it admits an item only when strictly below the cap, and leaves the config
untouched. -/
lemma processNextStart_inv (s : ManagerState)
    (h : s.processingQueue.length ≤ s.config.maxConcurrent) :
    ((processNextStart s).1).processingQueue.length ≤
      ((processNextStart s).1).config.maxConcurrent := by
  unfold processNextStart
  split
  · exact h
  · rename_i hlt
    rcases hfind : findPending s with _ | r
    · simpa [hfind] using h
    · have hle : (setAdd s.processingQueue r).length ≤ s.processingQueue.length + 1 :=
        setAdd_length_le _ _
      simp only [hfind, emit, setStatus, mutate]
      simp only [not_le] at hlt
      simpa using le_trans hle (by omega)

/-! ## The claims -/

/-- C6: for every state, `stats()` returns counts with
`total = pending + processing + completed + error`; the counts are derived by
scanning the queue by status, and `getQueueStats` is a pure observer (its type
takes the state and yields only the counts). -/
theorem stats_total_is_sum_of_buckets (s : ManagerState) :
    (getQueueStats s).total =
      (getQueueStats s).pending + (getQueueStats s).processing +
        (getQueueStats s).completed + (getQueueStats s).error := by
  have h := countP_status_partition (getQueue s)
  have hlen : (getQueue s).length = s.queue.length := List.length_map _ _
  simp only [getQueueStats]
  omega

/-- C7: `dispatch()` is a no-op — same state, no event — when the in-flight
set is already at (or beyond) `maxConcurrent`, or when no queued item is
`pending`. -/
theorem dispatch_noop_when_full_or_no_pending (s : ManagerState)
    (h : s.config.maxConcurrent ≤ s.processingQueue.length ∨
         ∀ r ∈ s.queue, (deref s r).status ≠ .pending) :
    processNextStart s = (s, none) := by
  unfold processNextStart
  split
  · rfl
  · rename_i hlt
    have hnone : findPending s = none := by
      rcases h with h | h
      · omega
      · unfold findPending
        rw [List.find?_eq_none]
        intro r hr
        simpa using h r hr
    simp [hnone]

/-- C7 witness: with `maxConcurrent = 0` and one pending item, a manual
`dispatch()` changes nothing. -/
theorem dispatch_noop_witness :
    ((addScreenshot (initialState
        { maxConcurrent := some 0, autoProcess := some false, retryAttempts := none,
          retryDelay := none }) "a" "b" 0).config.maxConcurrent ≤
      (addScreenshot (initialState
        { maxConcurrent := some 0, autoProcess := some false, retryAttempts := none,
          retryDelay := none }) "a" "b" 0).processingQueue.length) ∧
    processNextStart (addScreenshot (initialState
        { maxConcurrent := some 0, autoProcess := some false, retryAttempts := none,
          retryDelay := none }) "a" "b" 0) =
      (addScreenshot (initialState
        { maxConcurrent := some 0, autoProcess := some false, retryAttempts := none,
          retryDelay := none }) "a" "b" 0, none) :=
  ⟨by decide, dispatch_noop_when_full_or_no_pending _ (Or.inl (by decide))⟩

/-- C8: `remove(id)` with an id held by no queued item returns `false` and
returns the state unchanged — no event, no container touched, no exception
(the function is total). -/
theorem remove_unknown_id_noop (s : ManagerState) (id : Nat)
    (h : ∀ r ∈ s.queue, (deref s r).id ≠ id) :
    removeScreenshot s id = (s, false) := by
  unfold removeScreenshot
  have hnone : s.queue.findIdx? (fun r => (deref s r).id == id) = none := by
    rw [List.findIdx?_eq_none_iff]
    intro r hr
    simpa using h r hr
  simp [hnone]

/-- C8 witness: removing id 5 from a queue holding only item 0. -/
theorem remove_unknown_id_witness :
    (∀ r ∈ oneSubmitted.queue, (deref oneSubmitted r).id ≠ 5) ∧
    removeScreenshot oneSubmitted 5 = (oneSubmitted, false) :=
  ⟨by decide, remove_unknown_id_noop oneSubmitted 5 (by decide)⟩

/-- C9: `clear()` empties the queue, the in-flight set and the retry map, and
emits nothing — the event log, the heap and the config are untouched. -/
theorem clear_empties_all_and_is_silent (s : ManagerState) :
    (clearQueue s).queue = [] ∧ (clearQueue s).processingQueue = [] ∧
    (clearQueue s).retryCounts = [] ∧ (clearQueue s).events = s.events ∧
    (clearQueue s).store = s.store ∧ (clearQueue s).config = s.config :=
  ⟨rfl, rfl, rfl, rfl, rfl, rfl⟩

/-- C10: whatever the solver outcome — success, terminal error, or transient
failure — the continuation of a dispatch attempt ends with the item's id
removed from both `processingQueue` and `retryCounts` (the `finally` block
runs on every path, including the retry path's early `return`). -/
theorem finish_clears_inflight_and_tracker (s : ManagerState) (r : Nat)
    (o : PipelineOutcome) :
    r ∉ (processNextFinish s r o).processingQueue ∧
    mapGet (processNextFinish s r o).retryCounts r = none :=
  ⟨finish_not_inflight s r o, finish_tracker_none s r o⟩

/-- C1 (documenting the code bug): in the spec's scenario 2 —
`retryAttempts = 2`, one submitted item, a solver failing every attempt with
`"net-error"` — the claim (and the repository's own test and README) expect the
item to settle in `Error` after exactly `retryAttempts + 1 = 3` solver
invocations.  Instead, because the `finally` block deletes the retry counter
even on the retry path's early `return`, every failure reads attempt count 0:
after three failed attempts the item is still `pending`, the retry map is
empty, and a fourth dispatch of the same item begins — the item never reaches
`Error` and the solver is invoked without bound. -/
theorem spec_scenario2_retry_loop_never_errors :
    (deref (failedAttempt (failedAttempt (failedAttempt scn2Submitted))) 0).status =
      .pending ∧
    (failedAttempt (failedAttempt (failedAttempt scn2Submitted))).retryCounts = [] ∧
    (processNextStart (failedAttempt (failedAttempt (failedAttempt scn2Submitted)))).2 =
      some 0 := by
  decide

/-- C4 (documenting the code bug): after the first transient failure
(attempt count `n = 0 < retryAttempts = 2`) the item is back in `pending` and
no terminal event was emitted — those parts of the claim hold — but the
RetryTracker entry, which the claim says exists and equals `n + 1 = 1`, has
been deleted by the `finally` block that runs despite the `catch`'s early
`return`. -/
theorem tracker_entry_deleted_despite_transient_failure :
    (deref (failedAttempt scn2Submitted) 0).status = .pending ∧
    mapGet (failedAttempt scn2Submitted).retryCounts 0 = none ∧
    (failedAttempt scn2Submitted).events =
      [{ kind := .itemAdded, ref := 0 }, { kind := .itemProcessing, ref := 0 }] := by
  decide

/-- C2 counterexample: item 0 is `processing`; `remove(0)` returns `true` and
`stats()` immediately shows zero items — but when the in-flight pipeline
resolves successfully, an `itemCompleted` event IS raised (the continuation
emits the captured object unconditionally), contradicting the claim that no
event is raised. -/
theorem removed_item_resolution_still_emits :
    (deref oneProcessing 0).status = .processing ∧
    (removeScreenshot oneProcessing 0).2 = true ∧
    (getQueueStats removedWhileProcessing).total = 0 ∧
    (processNextFinish removedWhileProcessing 0 (.success "P" "C")).events =
      removedWhileProcessing.events ++ [{ kind := .itemCompleted, ref := 0 }] := by
  decide

/-- C2 as amended: after `remove(id)` of a `Processing` item, the eventual
resolution of the in-flight pipeline never re-inserts the item into the queue
and leaves its id untracked (the `finally` deletions are no-ops on the already
absent id) — but it is not silent: a successful resolution still emits
`itemCompleted` carrying the removed item, because the continuation operates
on the captured object reference, not on an id lookup. -/
theorem untracked_resolution_discarded_but_not_silent (s : ManagerState) (r : Nat)
    (o : PipelineOutcome) (p c : String) (h : r ∉ s.queue) :
    r ∉ (processNextFinish s r o).queue ∧
    r ∉ (processNextFinish s r o).processingQueue ∧
    mapGet (processNextFinish s r o).retryCounts r = none ∧
    (processNextFinish s r (.success p c)).events
      = s.events ++ [{ kind := .itemCompleted, ref := r }] := by
  refine ⟨?_, finish_not_inflight s r o, finish_tracker_none s r o, rfl⟩
  rw [processNextFinish_queue]
  exact h

/-- C2 amended witness: the concrete removed-while-processing scenario,
resolved once as a failure and once as a success. -/
theorem untracked_resolution_witness :
    0 ∉ removedWhileProcessing.queue ∧
    (0 ∉ (processNextFinish removedWhileProcessing 0 (.failure "e")).queue ∧
     0 ∉ (processNextFinish removedWhileProcessing 0 (.failure "e")).processingQueue ∧
     mapGet (processNextFinish removedWhileProcessing 0 (.failure "e")).retryCounts 0
       = none ∧
     (processNextFinish removedWhileProcessing 0 (.success "P" "C")).events
       = removedWhileProcessing.events ++ [{ kind := .itemCompleted, ref := 0 }]) :=
  ⟨by decide,
   untracked_resolution_discarded_but_not_silent removedWhileProcessing 0 (.failure "e")
     "P" "C" (by decide)⟩

/-- C3 counterexample: two items are in flight under `maxConcurrent = 2`; then
`updateConfig` lowers `maxConcurrent` to 1.  At this reachable point
`|InFlightSet| = 2 > 1 = maxConcurrent`, so the invariant does not hold across
cap-lowering `updateConfig` calls. -/
theorem lowered_cap_violates_inflight_bound :
    ¬ (loweredCap.processingQueue.length ≤ loweredCap.config.maxConcurrent) ∧
    loweredCap.processingQueue.length = 2 ∧
    loweredCap.config.maxConcurrent = 1 := by
  decide

/-- The per-operation side condition under which the concurrency bound is an
invariant: an `updateConfig` must not set `maxConcurrent` below the current
in-flight count; every other operation is unconstrained. -/
def opKeepsCap (s : ManagerState) : Op → Prop
  | .updateCfg p => s.processingQueue.length ≤ (mergeConfig s.config p).maxConcurrent
  | _ => True

/-- C3 as amended: every operation preserves `|InFlightSet| ≤ maxConcurrent` —
dispatch admits an item only strictly below the cap, and all other operations
only shrink the in-flight set — except that `updateConfig` preserves it only
when the merged `maxConcurrent` is not below the current in-flight count.
Hence the invariant holds at every point of any execution in which
`updateConfig` never lowers the cap below the current in-flight count. -/
theorem inflight_bound_preserved_by_ops (s : ManagerState) (op : Op)
    (hinv : s.processingQueue.length ≤ s.config.maxConcurrent)
    (hcfg : opKeepsCap s op) :
    (applyOp s op).processingQueue.length ≤ (applyOp s op).config.maxConcurrent := by
  cases op with
  | submit path preview now =>
    simp only [applyOp, addScreenshot]
    split
    · exact processNextStart_inv _ (by simpa [emit] using hinv)
    · simpa [emit] using hinv
  | dispatchStart => exact processNextStart_inv s hinv
  | dispatchFinish r o =>
    have h1 := finish_processing_length s r o
    have h2 := processNextFinish_config s r o
    simp only [applyOp, h2]
    omega
  | remove id =>
    have h := remove_processing_length s id
    simp only [applyOp, h.2]
    omega
  | clear => simp [applyOp, clearQueue]
  | updateCfg p => simpa [applyOp, updateConfig] using hcfg

/-- C3 amended witness: with two items in flight at cap 2, a further dispatch
attempt keeps the bound. -/
theorem inflight_bound_preserved_witness :
    twoProcessing.processingQueue.length ≤ twoProcessing.config.maxConcurrent ∧
    opKeepsCap twoProcessing Op.dispatchStart ∧
    (applyOp twoProcessing Op.dispatchStart).processingQueue.length ≤
      (applyOp twoProcessing Op.dispatchStart).config.maxConcurrent :=
  ⟨by decide, trivial,
   inflight_bound_preserved_by_ops twoProcessing Op.dispatchStart (by decide) trivial⟩

/-- C5 counterexample: the `itemAdded` event for the submitted item carries a
reference to the very object stored in the queue, so a listener that sets the
payload's status to `completed` changes the item's status as observed through
the scheduler's queue — the claim that listeners cannot change queue state is
false. -/
theorem listener_mutation_reaches_queue :
    oneSubmitted.events = [{ kind := .itemAdded, ref := 0 }] ∧
    (getQueue oneSubmitted).map (fun it => it.status) = [.pending] ∧
    (getQueue (listenerSetStatus oneSubmitted { kind := .itemAdded, ref := 0 }
        .completed)).map (fun it => it.status) = [.completed] := by
  decide

/-- C5 as amended: events carry a live reference, not a by-value snapshot.
After `submit`, the emitted `itemAdded` payload is exactly the reference
appended to the queue, and a listener writing a status through that payload
changes the item as stored behind the queued reference. -/
theorem event_payload_aliases_queued_item (s : ManagerState) (path preview : String)
    (now : Nat) (st : ScreenshotStatus) (h : s.config.autoProcess = false) :
    (addScreenshot s path preview now).events
      = s.events ++ [{ kind := .itemAdded, ref := s.store.length }] ∧
    (addScreenshot s path preview now).queue = s.queue ++ [s.store.length] ∧
    deref (listenerSetStatus (addScreenshot s path preview now)
        { kind := .itemAdded, ref := s.store.length } st) s.store.length
      = { deref (addScreenshot s path preview now) s.store.length with status := st } := by
  simp only [addScreenshot, emit]
  rw [if_neg (by simpa using h)]
  refine ⟨rfl, rfl, ?_⟩
  simp only [listenerSetStatus, setStatus, mutate, deref]
  rw [List.get?_eq_getElem?, List.get?_eq_getElem?]
  rw [List.getElem?_set_self (by simp)]
  simp

/-- C5 amended witness: the aliasing observed on a fresh manager with one
submitted item and a listener that marks the payload completed. -/
theorem event_payload_aliases_witness :
    (initialState manualOverrides).config.autoProcess = false ∧
    ((addScreenshot (initialState manualOverrides) "a" "b" 0).events
       = (initialState manualOverrides).events ++ [{ kind := .itemAdded, ref := 0 }] ∧
     (addScreenshot (initialState manualOverrides) "a" "b" 0).queue
       = (initialState manualOverrides).queue ++ [0] ∧
     deref (listenerSetStatus (addScreenshot (initialState manualOverrides) "a" "b" 0)
         { kind := .itemAdded, ref := 0 } .completed) 0
       = { deref (addScreenshot (initialState manualOverrides) "a" "b" 0) 0 with
             status := .completed }) :=
  ⟨by decide,
   event_payload_aliases_queued_item (initialState manualOverrides) "a" "b" 0 .completed
     (by decide)⟩

end ScreenshotQueue
